import Mathlib

/- Verification of the Animal Home API backend (src/main.py and src/schemas.py):
   the query-filter construction of GET /animals, the MongoDB evaluation of the
   filter fragment the route emits, the to_public response projection, the
   FastAPI parameter validation declared in the route signatures, and the
   validated write pipelines of POST /applications, /volunteers, /donations. -/

namespace AnimalHome

/-- A stored field value in a document (the fragment of BSON this code uses). -/
inductive Value where
  | s : String → Value
  | i : Int → Value
  | b : Bool → Value
  | null : Value
  | oid : Nat → Value
  | strList : List String → Value
deriving DecidableEq, Repr

/-- A document: ordered key-value pairs, Python-dict style (keys are unique in
    every document the system builds). -/
abbrev Doc := List (String × Value)

/-- Python dict lookup (doc.get k): the value at the first matching key. -/
def dictGet : Doc → String → Option Value
  | [], _ => none
  | p :: rest, k => if p.1 = k then some p.2 else dictGet rest k

/-- Python dict assignment (doc k = v): replaces the value at an existing key in
    place, keeping its position, else appends the new pair at the end. -/
def dictSet : Doc → String → Value → Doc
  | [], k, v => [(k, v)]
  | p :: rest, k, v => if p.1 = k then (k, v) :: rest else p :: dictSet rest k v

/-- Python dict.pop(k, None): removes the entry at the key if present (keys are
    unique in a dict, so removing every occurrence is the same operation). -/
def dictPop : Doc → String → Doc
  | [], _ => []
  | p :: rest, k => if p.1 = k then dictPop rest k else p :: dictPop rest k

/-- Python str() applied to doc.get of the identity field: an absent key gives
    None, which str renders as the four-letter string; an ObjectId's string form
    is modelled by the decimal rendering of the model's identity counter (an
    injective, non-empty rendering, which is all the code relies on). The list
    case is never reached for an identity field. -/
def pyStr : Option Value → String
  | none => "None"
  | some (Value.s t) => t
  | some (Value.i n) => toString n
  | some (Value.b true) => "True"
  | some (Value.b false) => "False"
  | some Value.null => "None"
  | some (Value.oid n) => toString n
  | some (Value.strList l) => String.intercalate ", " l

/-- main.py to_public on a non-None document: an empty document is returned
    as-is (Python falsiness of the empty dict); otherwise the store identity is
    exposed under id via doc.get, then the internal _id entry is popped. -/
def to_publicDoc (d : Doc) : Doc :=
  if d = [] then d
  else dictPop (dictSet d "id" (Value.s (pyStr (dictGet d "_id")))) "_id"

/-- main.py to_public, including the None input case. -/
def to_public : Option Doc → Option Doc
  | none => none
  | some d => some (to_publicDoc d)

/- ## The regex fragment of the q parameter

list_animals passes the raw q string to MongoDB as a PCRE pattern with the
case-insensitive option. We model the fragment of PCRE whose patterns consist
of literal characters and the metacharacter dot; every theorem that varies the
pattern stays inside this fragment, and elsewhere both sides of an equivalence
use the same evaluation function, so the value outside the fragment is never
load-bearing. -/

/-- One atom of the modelled regex fragment. -/
inductive RAtom where
  | lit : Char → RAtom
  | dot : RAtom
deriving DecidableEq, Repr

/-- PCRE metacharacters (including dot, which the model does support; the other
    ones put a pattern outside the modelled fragment). -/
def isRegexMeta (c : Char) : Bool :=
  c == '.' || c == '^' || c == '$' || c == '*' || c == '+' || c == '?' ||
  c == '(' || c == ')' || c == '[' || c == ']' || c == '|' || c == '\\' ||
  c == Char.ofNat 123 || c == Char.ofNat 125

/-- Parse a pattern into atoms; none when the pattern leaves the fragment. -/
def parseAtoms : List Char → Option (List RAtom)
  | [] => some []
  | c :: cs =>
    if c = '.' then (parseAtoms cs).map (fun as => RAtom.dot :: as)
    else if isRegexMeta c then none
    else (parseAtoms cs).map (fun as => RAtom.lit c :: as)

def parsePat (t : String) : Option (List RAtom) := parseAtoms t.data

/-- Anchored match of an atom list at the head of the text. A literal matches
    case-insensitively (the i option); PCRE dot matches any character except a
    newline. -/
def matchAtomsAt : List RAtom → List Char → Bool
  | [], _ => true
  | _ :: _, [] => false
  | RAtom.lit c :: ps, x :: xs => (c.toLower == x.toLower) && matchAtomsAt ps xs
  | RAtom.dot :: ps, x :: xs => (x != '\n') && matchAtomsAt ps xs

/-- Unanchored search: MongoDB regex matches if the pattern matches anywhere. -/
def searchAtoms (p : List RAtom) : List Char → Bool
  | [] => matchAtomsAt p []
  | x :: t => matchAtomsAt p (x :: t) || searchAtoms p t

/-- MongoDB regex-with-options-i evaluation as emitted by list_animals: the
    pattern is the raw user string. -/
def regexI (pat text : String) : Bool :=
  match parsePat pat with
  | some atoms => searchAtoms atoms text.data
  | none => false

/- ## Spec-side substring search (the words of the specification) -/

/-- The needle occurs at the head of the hay. -/
def isPrefixAt : List Char → List Char → Bool
  | [], _ => true
  | _ :: _, [] => false
  | c :: cs, x :: xs => (c == x) && isPrefixAt cs xs

/-- The needle occurs contiguously somewhere in the hay. -/
def isSubstrAt : List Char → List Char → Bool
  | n, [] => isPrefixAt n []
  | n, x :: t => isPrefixAt n (x :: t) || isSubstrAt n t

def lowerChars (t : String) : List Char := t.data.map Char.toLower

/-- Spec-side notion for the q parameter: case-insensitive substring
    containment. -/
def containsCI (needle hay : String) : Bool :=
  isSubstrAt (lowerChars needle) (lowerChars hay)

/- ## The Animal record (schemas.py) and its stored document -/

/-- schemas.py Animal, as stored in the animal collection (optional fields are
    stored as null). -/
structure Animal where
  name : String
  species : String
  breed : Option String
  age : Int
  size : String
  gender : Option String
  description : Option String
  photos : List String
  featured : Bool
  location : Option String
  good_with_kids : Option Bool
  good_with_pets : Option Bool
deriving DecidableEq, Repr

def speciesEnum : List String := ["dog", "cat", "rabbit", "bird", "other"]
def sizeEnum : List String := ["small", "medium", "large", "xlarge"]
def genderEnum : List String := ["male", "female"]

/-- Pydantic validation of an Animal: species, size and gender drawn from their
    literal sets and 0 ≤ age ≤ 40. Returns the violated fields ([] = valid). -/
def animalViolations (a : Animal) : List String :=
  (if speciesEnum.contains a.species then [] else ["species"]) ++
  (if a.age < 0 ∨ 40 < a.age then ["age"] else []) ++
  (if sizeEnum.contains a.size then [] else ["size"]) ++
  (match a.gender with
   | some g => if genderEnum.contains g then [] else ["gender"]
   | none => [])

def optStrVal : Option String → Value
  | some t => Value.s t
  | none => Value.null

def optBoolVal : Option Bool → Value
  | some x => Value.b x
  | none => Value.null

/-- The stored animal document's value at a field name, for every field the
    schema declares (optional fields are stored as null, which no condition the
    builder emits can match). -/
def Animal.fieldValue (a : Animal) : String → Option Value
  | "name" => some (Value.s a.name)
  | "species" => some (Value.s a.species)
  | "breed" => some (optStrVal a.breed)
  | "age" => some (Value.i a.age)
  | "size" => some (Value.s a.size)
  | "gender" => some (optStrVal a.gender)
  | "description" => some (optStrVal a.description)
  | "photos" => some (Value.strList a.photos)
  | "featured" => some (Value.b a.featured)
  | "location" => some (optStrVal a.location)
  | "good_with_kids" => some (optBoolVal a.good_with_kids)
  | "good_with_pets" => some (optBoolVal a.good_with_pets)
  | _ => none

/-- model_dump of a validated Animal in declaration order, as inserted into the
    store (the same stored fields Animal.fieldValue reads). -/
def animalRecordDoc (a : Animal) : Doc :=
  [("name", Value.s a.name), ("species", Value.s a.species),
   ("breed", optStrVal a.breed), ("age", Value.i a.age),
   ("size", Value.s a.size), ("gender", optStrVal a.gender),
   ("description", optStrVal a.description), ("photos", Value.strList a.photos),
   ("featured", Value.b a.featured), ("location", optStrVal a.location),
   ("good_with_kids", optBoolVal a.good_with_kids),
   ("good_with_pets", optBoolVal a.good_with_pets)]

/- ## The filter builder of GET /animals (main.py lines 123-142) -/

/-- A single-field condition appearing in the filter dict list_animals builds. -/
inductive FieldCond where
  | eqS : String → FieldCond
  | eqB : Bool → FieldCond
  | range : Option Int → Option Int → FieldCond
  | regex : String → FieldCond
deriving DecidableEq, Repr

/-- The shape of the filter documents list_animals builds: an optional Mongo
    or-clause of single-field conditions, plus top-level field conditions that
    MongoDB conjoins implicitly. -/
structure Filter where
  orClauses : Option (List (String × FieldCond))
  fields : List (String × FieldCond)
deriving DecidableEq, Repr

/-- The query parameters of GET /animals (limit defaults to 24 in the route
    signature). -/
structure ListAnimalsParams where
  q : Option String
  species : Option String
  age_min : Option Int
  age_max : Option Int
  size : Option String
  featured : Option Bool
  limit : Int
deriving DecidableEq, Repr

/-- The filter dict list_animals builds. Python truthiness is modelled exactly:
    the q, species and size branches are skipped both for None and for the
    empty string; the featured branch tests is-not-None; the age sub-dict is
    attached only when non-empty. -/
def buildAnimalFilter (p : ListAnimalsParams) : Filter :=
  Filter.mk
    (match p.q with
     | some t =>
       if t = "" then none
       else some [("name", FieldCond.regex t), ("breed", FieldCond.regex t),
                  ("description", FieldCond.regex t)]
     | none => none)
    ((match p.species with
      | some t => if t = "" then [] else [("species", FieldCond.eqS t)]
      | none => []) ++
     (match p.size with
      | some t => if t = "" then [] else [("size", FieldCond.eqS t)]
      | none => []) ++
     (match p.featured with
      | some x => [("featured", FieldCond.eqB x)]
      | none => []) ++
     (if p.age_min.isSome || p.age_max.isSome then
        [("age", FieldCond.range p.age_min p.age_max)]
      else []))

/-- MongoDB evaluation of one field condition against a stored animal document:
    equality requires the stored value to equal the literal, gte/lte require a
    numeric value inside the range, and regex matches only string values (a
    null stored for an absent optional field never matches). -/
def evalFieldCond (a : Animal) (f : String) : FieldCond → Bool
  | FieldCond.eqS t =>
    match a.fieldValue f with
    | some (Value.s v) => v == t
    | _ => false
  | FieldCond.eqB x =>
    match a.fieldValue f with
    | some (Value.b v) => v == x
    | _ => false
  | FieldCond.range g l =>
    match a.fieldValue f with
    | some (Value.i v) =>
      (match g with | some m => decide (m ≤ v) | none => true) &&
      (match l with | some m => decide (v ≤ m) | none => true)
    | _ => false
  | FieldCond.regex pat =>
    match a.fieldValue f with
    | some (Value.s v) => regexI pat v
    | _ => false

/-- MongoDB evaluation of a built filter: the or-clause (when present) requires
    some disjunct to hold, and every top-level field condition must hold. -/
def evalFilter (a : Animal) (f : Filter) : Bool :=
  (match f.orClauses with
   | some cls => cls.any (fun fc => evalFieldCond a fc.1 fc.2)
   | none => true) &&
  f.fields.all (fun fc => evalFieldCond a fc.1 fc.2)

/-- An animal document satisfies the filter GET /animals builds. -/
def animalMatches (p : ListAnimalsParams) (a : Animal) : Bool :=
  evalFilter a (buildAnimalFilter p)

/-- Regex applied to an optional stored string (null never matches). -/
def regexOpt (pat : String) : Option String → Bool
  | some t => regexI pat t
  | none => false

/-- The meaning of the q disjunct list_animals builds: the raw q string as a
    case-insensitive regex against name, breed and description. -/
def qConstraint (t : String) (a : Animal) : Bool :=
  regexI t a.name || regexOpt t a.breed || regexOpt t a.description

/-- Substring containment in an optional field (an absent field contains
    nothing). -/
def containsOpt (needle : String) : Option String → Bool
  | some t => containsCI needle t
  | none => false

/-- Spec-side q predicate, in the words of the specification: q occurs as a
    case-insensitive substring of name, breed or description. -/
def qSubstringSpec (needle : String) (a : Animal) : Bool :=
  containsCI needle a.name || containsOpt needle a.breed ||
  containsOpt needle a.description

/-- Spec-side conjunction, in the words of the specification: every
    individually supplied parameter's predicate holds, and an absent parameter
    contributes no constraint. The q predicate is the regex disjunct the route
    builds (its relation to substring search is a separate claim). -/
def specConjunction (p : ListAnimalsParams) (a : Animal) : Bool :=
  (match p.q with | some t => qConstraint t a | none => true) &&
  (match p.species with | some t => a.species == t | none => true) &&
  (match p.size with | some t => a.size == t | none => true) &&
  (match p.featured with | some x => a.featured == x | none => true) &&
  (match p.age_min with | some m => decide (m ≤ a.age) | none => true) &&
  (match p.age_max with | some m => decide (a.age ≤ m) | none => true)

/- ## The read endpoints -/

/-- Outcome of a request: success, a 422 parameter/body validation error with
    the violated fields, or a 500 with the underlying cause text. -/
inductive ApiResult (α : Type) where
  | ok : α → ApiResult α
  | validationError : List String → ApiResult α
  | serverError : String → ApiResult α
deriving DecidableEq, Repr

/-- FastAPI validation of the GET /animals query parameters, exactly as the
    Query declarations in the route signature state it: age_min ge 0,
    age_max ge 0, limit ge 1 le 100 (q, species, size, featured carry no
    constraint). Returns the violated parameters ([] = accepted). -/
def animalParamViolations (p : ListAnimalsParams) : List String :=
  (match p.age_min with
   | some m => if m < 0 then ["age_min"] else []
   | none => []) ++
  (match p.age_max with
   | some m => if m < 0 then ["age_max"] else []
   | none => []) ++
  (if p.limit < 1 ∨ 100 < p.limit then ["limit"] else [])

/-- cursor.limit(n) in MongoDB: 0 means no limit at all; a negative n caps at
    its absolute value (single batch); a positive n caps at n. -/
def mongoLimit (n : Int) (l : List α) : List α :=
  if n = 0 then l else l.take n.natAbs

/-- The limit default declared in the GET /animals route signature. -/
def animalsLimitDefault : Int := 24

/-- The limit default declared in the GET /stories route signature. -/
def storiesLimitDefault : Int := 6

/-- GET /animals: FastAPI validates the declared query parameters before the
    handler runs; the handler returns [] when the store is unconfigured, else
    the documents matching the built filter, capped at limit. (The handler then
    maps to_public over the results; the projection is modelled separately on
    the document representation and does not affect which animals are
    returned.) -/
def list_animals (db : Option (List Animal)) (p : ListAnimalsParams) :
    ApiResult (List Animal) :=
  if animalParamViolations p = [] then
    match db with
    | none => ApiResult.ok []
    | some docs =>
      ApiResult.ok (mongoLimit p.limit (docs.filter (fun a => animalMatches p a)))
  else ApiResult.validationError (animalParamViolations p)

/-- GET /animals/featured: no query parameters at all; finds featured equal to
    true, capped at the hard-coded 8. -/
def featured_animals (db : Option (List Animal)) : ApiResult (List Animal) :=
  match db with
  | none => ApiResult.ok []
  | some docs =>
    ApiResult.ok (mongoLimit 8 (docs.filter (fun a =>
      evalFilter a (Filter.mk none [("featured", FieldCond.eqB true)]))))

/-- GET /stories: limit is a plain int parameter with no range validation in
    the signature; the handler returns [] when the store is unconfigured, else
    every story capped by cursor.limit and projected through to_public. -/
def get_stories (db : Option (List Doc)) (limit : Int) : ApiResult (List Doc) :=
  match db with
  | none => ApiResult.ok []
  | some docs => ApiResult.ok ((mongoLimit limit docs).map to_publicDoc)

/- ## The write endpoints (schemas.py records, raw bodies, pipelines) -/

/-- schemas.py Application (animal_id is a weak back reference, looked up but
    never checked against existing animals). -/
structure Application where
  animal_id : String
  full_name : String
  email : String
  phone : Option String
  message : Option String
deriving DecidableEq, Repr

/-- schemas.py Volunteer. -/
structure Volunteer where
  full_name : String
  email : String
  interests : List String
  availability : Option String
  message : Option String
deriving DecidableEq, Repr

/-- schemas.py Donation: amount is a float constrained gt 0; the numeric value
    is modelled as a rational. -/
structure Donation where
  full_name : String
  email : Option String
  amount : Rat
  message : Option String
deriving DecidableEq, Repr

/-- A POST /applications body before validation; none marks an absent field. -/
structure RawApplication where
  animal_id : Option String
  full_name : Option String
  email : Option String
  phone : Option String
  message : Option String
deriving DecidableEq, Repr

/-- A POST /volunteers body before validation. -/
structure RawVolunteer where
  full_name : Option String
  email : Option String
  interests : Option (List String)
  availability : Option String
  message : Option String
deriving DecidableEq, Repr

/-- A POST /donations body before validation. -/
structure RawDonation where
  full_name : Option String
  email : Option String
  amount : Option Rat
  message : Option String
deriving DecidableEq, Repr

/-- Split a character list at every occurrence of the separator (the semantics
    of str.split with a one-character separator). -/
def splitOnChar (sep : Char) : List Char → List (List Char)
  | [] => [[]]
  | c :: cs =>
    if c = sep then [] :: splitOnChar sep cs
    else
      match splitOnChar sep cs with
      | [] => [[c]]
      | t :: ts => (c :: t) :: ts

/-- The EmailStr grammar of the validation library, in the simplified form the
    claims exercise: exactly one at-sign, a non-empty local part, and a domain
    of at least two non-empty dot-separated labels. -/
def isValidEmail (t : String) : Bool :=
  match splitOnChar '@' t.data with
  | [loc, dom] =>
    (!loc.isEmpty) &&
    (let labels := splitOnChar '.' dom
     decide (2 ≤ labels.length) && labels.all (fun l => !l.isEmpty))
  | _ => false

/-- Pydantic validation of a POST /applications body: required fields present
    and a well-formed email. Returns every violated field in declaration
    order. -/
def applicationViolations (r : RawApplication) : List String :=
  (match r.animal_id with | none => ["animal_id"] | some _ => []) ++
  (match r.full_name with | none => ["full_name"] | some _ => []) ++
  (match r.email with
   | none => ["email"]
   | some e => if isValidEmail e then [] else ["email"])

/-- Pydantic validation of a POST /volunteers body. -/
def volunteerViolations (r : RawVolunteer) : List String :=
  (match r.full_name with | none => ["full_name"] | some _ => []) ++
  (match r.email with
   | none => ["email"]
   | some e => if isValidEmail e then [] else ["email"])

/-- Pydantic validation of a POST /donations body: full_name required, email
    validated only when present, amount required and strictly positive. -/
def donationViolations (r : RawDonation) : List String :=
  (match r.full_name with | none => ["full_name"] | some _ => []) ++
  (match r.email with
   | none => []
   | some e => if isValidEmail e then [] else ["email"]) ++
  (match r.amount with
   | none => ["amount"]
   | some a => if 0 < a then [] else ["amount"])

/-- Modelled from the spec: database.py (the Document Store Adapter) is not
    under src/; per the spec it holds one list per collection and assigns each
    inserted document a fresh store identity, here successive naturals. -/
structure WriteStore where
  applications : List (Nat × Application)
  volunteers : List (Nat × Volunteer)
  donations : List (Nat × Donation)
  nextId : Nat
deriving DecidableEq, Repr

/-- Modelled from the spec: the string form of a store identity (the real
    adapter returns an ObjectId hex string; the claims use only that the
    rendering is non-empty). -/
def oidString (n : Nat) : String := "oid" ++ toString n

/-- Modelled from the spec: create_document for the application collection
    (insert(collection, document) -> id). -/
def insertApplication (st : WriteStore) (r : Application) : String × WriteStore :=
  (oidString st.nextId,
   WriteStore.mk (st.applications ++ [(st.nextId, r)]) st.volunteers st.donations
     (st.nextId + 1))

/-- Modelled from the spec: create_document for the volunteer collection. -/
def insertVolunteer (st : WriteStore) (r : Volunteer) : String × WriteStore :=
  (oidString st.nextId,
   WriteStore.mk st.applications (st.volunteers ++ [(st.nextId, r)]) st.donations
     (st.nextId + 1))

/-- Modelled from the spec: create_document for the donation collection. -/
def insertDonation (st : WriteStore) (r : Donation) : String × WriteStore :=
  (oidString st.nextId,
   WriteStore.mk st.applications st.volunteers (st.donations ++ [(st.nextId, r)])
     (st.nextId + 1))

/-- POST /applications: the body is validated before the handler runs (an
    invalid body is a 422 that never reaches the store); the handler inserts
    the validated record and answers the new id plus the fixed token received.
    The second component is the store after the request. The inner fallthrough
    is unreachable: an empty violation list forces every required field to be
    present. -/
def submit_application (st : WriteStore) (r : RawApplication) :
    ApiResult (String × String) × WriteStore :=
  if applicationViolations r = [] then
    match r.animal_id, r.full_name, r.email with
    | some aid, some fn, some em =>
      let ins := insertApplication st (Application.mk aid fn em r.phone r.message)
      (ApiResult.ok (ins.1, "received"), ins.2)
    | _, _, _ => (ApiResult.validationError (applicationViolations r), st)
  else (ApiResult.validationError (applicationViolations r), st)

/-- POST /volunteers: same pipeline, status token received; an absent interests
    field defaults to the empty list. -/
def submit_volunteer (st : WriteStore) (r : RawVolunteer) :
    ApiResult (String × String) × WriteStore :=
  if volunteerViolations r = [] then
    match r.full_name, r.email with
    | some fn, some em =>
      let ins := insertVolunteer st
        (Volunteer.mk fn em (r.interests.getD []) r.availability r.message)
      (ApiResult.ok (ins.1, "received"), ins.2)
    | _, _ => (ApiResult.validationError (volunteerViolations r), st)
  else (ApiResult.validationError (volunteerViolations r), st)

/-- POST /donations: same pipeline, status token pledged. -/
def submit_donation (st : WriteStore) (r : RawDonation) :
    ApiResult (String × String) × WriteStore :=
  if donationViolations r = [] then
    match r.full_name, r.amount with
    | some fn, some a =>
      let ins := insertDonation st (Donation.mk fn r.email a r.message)
      (ApiResult.ok (ins.1, "pledged"), ins.2)
    | _, _ => (ApiResult.validationError (donationViolations r), st)
  else (ApiResult.validationError (donationViolations r), st)

/- ## Concrete documents (from the seed data) used by witnesses -/

/-- The first seeded animal (main.py seed_data), as a stored document. -/
def lunaExample : Animal :=
  Animal.mk "Luna" "dog" (some "Labrador Mix") 3 "large" (some "female")
    (some "Playful, gentle, loves long walks and belly rubs.")
    ["https://images.unsplash.com/photo-1543466835"] true (some "Shelter A")
    (some true) (some true)

/-- A minimal stored animal whose text fields contain no dot. -/
def plainExample : Animal :=
  Animal.mk "abc" "dog" none 3 "small" none none [] false none none none

/-- A stored story document. -/
def storyExample : Doc :=
  [("_id", Value.oid 1), ("title", Value.s "t"), ("animal_name", Value.null),
   ("content", Value.s "c"), ("image_url", Value.null)]

/- ## Helper lemmas: stored field reads -/

theorem fieldValue_name (a : Animal) : a.fieldValue "name" = some (Value.s a.name) := rfl

theorem fieldValue_species (a : Animal) :
    a.fieldValue "species" = some (Value.s a.species) := rfl

theorem fieldValue_breed (a : Animal) :
    a.fieldValue "breed" = some (optStrVal a.breed) := rfl

theorem fieldValue_age (a : Animal) : a.fieldValue "age" = some (Value.i a.age) := rfl

theorem fieldValue_size (a : Animal) : a.fieldValue "size" = some (Value.s a.size) := rfl

theorem fieldValue_description (a : Animal) :
    a.fieldValue "description" = some (optStrVal a.description) := rfl

theorem fieldValue_featured (a : Animal) :
    a.fieldValue "featured" = some (Value.b a.featured) := rfl

theorem evalFieldCond_species (a : Animal) (t : String) :
    evalFieldCond a "species" (FieldCond.eqS t) = (a.species == t) := rfl

theorem evalFieldCond_size (a : Animal) (t : String) :
    evalFieldCond a "size" (FieldCond.eqS t) = (a.size == t) := rfl

theorem evalFieldCond_featured (a : Animal) (x : Bool) :
    evalFieldCond a "featured" (FieldCond.eqB x) = (a.featured == x) := rfl

theorem evalFieldCond_age (a : Animal) (g l : Option Int) :
    evalFieldCond a "age" (FieldCond.range g l) =
      ((match g with | some m => decide (m ≤ a.age) | none => true) &&
       (match l with | some m => decide (a.age ≤ m) | none => true)) := rfl

theorem evalFieldCond_regex_name (a : Animal) (t : String) :
    evalFieldCond a "name" (FieldCond.regex t) = regexI t a.name := rfl

theorem evalFieldCond_regex_breed (a : Animal) (t : String) :
    evalFieldCond a "breed" (FieldCond.regex t) = regexOpt t a.breed := by
  cases h : a.breed <;>
    simp [evalFieldCond, fieldValue_breed, optStrVal, regexOpt, h]

theorem evalFieldCond_regex_description (a : Animal) (t : String) :
    evalFieldCond a "description" (FieldCond.regex t) = regexOpt t a.description := by
  cases h : a.description <;>
    simp [evalFieldCond, fieldValue_description, optStrVal, regexOpt, h]

/- ## Helper lemmas: the regex fragment versus substring search -/

theorem searchAtoms_nil (l : List Char) : searchAtoms [] l = true := by
  cases l <;> simp [searchAtoms, matchAtomsAt]

theorem regexI_empty (t : String) : regexI "" t = true := by
  have h : parsePat "" = some [] := rfl
  simp [regexI, h, searchAtoms_nil]

theorem qConstraint_empty (a : Animal) : qConstraint "" a = true := by
  simp [qConstraint, regexI_empty]

theorem isSubstrAt_nil (l : List Char) : isSubstrAt [] l = true := by
  cases l <;> simp [isSubstrAt, isPrefixAt]

theorem containsCI_empty (t : String) : containsCI "" t = true := by
  have h : lowerChars "" = [] := rfl
  simp [containsCI, h, isSubstrAt_nil]

theorem parseAtoms_literal (cs : List Char)
    (h : cs.all (fun c => !isRegexMeta c) = true) :
    parseAtoms cs = some (cs.map RAtom.lit) := by
  induction cs with
  | nil => rfl
  | cons c cs ih =>
    rw [List.all_cons, Bool.and_eq_true] at h
    have hm : isRegexMeta c = false := by
      simpa using h.1
    have hdot : ¬ c = '.' := by
      intro hc
      subst hc
      simp [isRegexMeta] at hm
    simp [parseAtoms, hdot, hm, ih h.2]

theorem matchAtomsAt_lit (cs h : List Char) :
    matchAtomsAt (cs.map RAtom.lit) h =
      isPrefixAt (cs.map Char.toLower) (h.map Char.toLower) := by
  induction cs generalizing h with
  | nil => simp [matchAtomsAt, isPrefixAt]
  | cons c cs ih =>
    cases h with
    | nil => simp [matchAtomsAt, isPrefixAt]
    | cons x xs => simp [matchAtomsAt, isPrefixAt, ih]

theorem searchAtoms_lit (cs h : List Char) :
    searchAtoms (cs.map RAtom.lit) h =
      isSubstrAt (cs.map Char.toLower) (h.map Char.toLower) := by
  induction h with
  | nil => simp [searchAtoms, isSubstrAt, matchAtomsAt_lit]
  | cons x xs ih => simp [searchAtoms, isSubstrAt, matchAtomsAt_lit, ih]

theorem regexI_literal (q t : String)
    (h : q.data.all (fun c => !isRegexMeta c) = true) :
    regexI q t = containsCI q t := by
  simp [regexI, parsePat, parseAtoms_literal q.data h, containsCI, lowerChars,
    searchAtoms_lit]

theorem regexOpt_literal (q : String) (o : Option String)
    (h : q.data.all (fun c => !isRegexMeta c) = true) :
    regexOpt q o = containsOpt q o := by
  cases o <;> simp [regexOpt, containsOpt, regexI_literal q _ h]

/- ## Helper lemmas: dict operations -/

theorem dictGet_dictSet_self (d : Doc) (k : String) (v : Value) :
    dictGet (dictSet d k v) k = some v := by
  induction d with
  | nil => simp [dictSet, dictGet]
  | cons p rest ih =>
    by_cases h : p.1 = k
    · simp [dictSet, dictGet, h]
    · simp [dictSet, dictGet, h, ih]

theorem dictGet_dictSet_ne (d : Doc) (k k2 : String) (v : Value) (h : k2 ≠ k) :
    dictGet (dictSet d k v) k2 = dictGet d k2 := by
  induction d with
  | nil => simp [dictSet, dictGet, Ne.symm h]
  | cons p rest ih =>
    by_cases hp : p.1 = k
    · simp [dictSet, dictGet, hp, Ne.symm h]
    · simp [dictSet, dictGet, hp, ih]

theorem dictGet_dictPop_self (d : Doc) (k : String) :
    dictGet (dictPop d k) k = none := by
  induction d with
  | nil => simp [dictPop, dictGet]
  | cons p rest ih =>
    by_cases h : p.1 = k
    · simp [dictPop, h, ih]
    · simp [dictPop, dictGet, h, ih]

theorem dictGet_dictPop_ne (d : Doc) (k k2 : String) (h : k2 ≠ k) :
    dictGet (dictPop d k) k2 = dictGet d k2 := by
  induction d with
  | nil => simp [dictPop]
  | cons p rest ih =>
    by_cases hp : p.1 = k
    · simp [dictPop, dictGet, hp, Ne.symm h, ih]
    · simp [dictPop, dictGet, hp, ih]

/- ## Claim theorems -/

/-- Claim C4: when the store is unconfigured (db is None), GET /animals,
    GET /animals/featured and GET /stories each return the empty sequence
    rather than an error, for every accepted choice of query parameters
    (parameter validation runs before any handler and is the subject of C3). -/
theorem unconfigured_store_reads_empty :
    (∀ p : ListAnimalsParams, animalParamViolations p = [] →
      list_animals none p = ApiResult.ok []) ∧
    featured_animals none = ApiResult.ok [] ∧
    (∀ limit : Int, get_stories none limit = ApiResult.ok []) := by
  refine ⟨fun p h => ?_, rfl, fun _ => rfl⟩
  simp [list_animals, h]

/-- Witness for C4 at concrete inputs. -/
theorem unconfigured_store_reads_empty_witness :
    list_animals none (ListAnimalsParams.mk none none none none none none 24) =
      ApiResult.ok [] ∧
    get_stories none 0 = ApiResult.ok [] :=
  ⟨unconfigured_store_reads_empty.1
      (ListAnimalsParams.mk none none none none none none 24) (by decide),
    unconfigured_store_reads_empty.2.2 0⟩

/-- Claim C5: the age constraint GET /animals builds is the closed interval —
    an animal matches iff age_min ≤ age when age_min is supplied and
    age ≤ age_max when age_max is supplied, each bound usable alone; with
    age_min = 2 and age_max = 5 exactly the ages 2..5 match. -/
theorem age_range_closed_interval :
    (∀ (a : Animal) (amin amax : Option Int),
      animalMatches (ListAnimalsParams.mk none none amin amax none none 24) a = true ↔
        (∀ m, amin = some m → m ≤ a.age) ∧ (∀ m, amax = some m → a.age ≤ m)) ∧
    (∀ a : Animal,
      animalMatches (ListAnimalsParams.mk none none (some 2) (some 5) none none 24) a
          = true ↔
        2 ≤ a.age ∧ a.age ≤ 5) := by
  constructor
  · intro a amin amax
    rcases amin with _ | m1 <;> rcases amax with _ | m2 <;>
      simp [animalMatches, buildAnimalFilter, evalFilter, evalFieldCond_age,
        List.all_append]
  · intro a
    simp [animalMatches, buildAnimalFilter, evalFilter, evalFieldCond_age]

/-- Witness for C5: Luna (age 3) matches the range 2..5. -/
theorem age_range_closed_interval_witness :
    animalMatches (ListAnimalsParams.mk none none (some 2) (some 5) none none 24)
      lunaExample = true :=
  (age_range_closed_interval.2 lunaExample).mpr (by decide)

/-- Claim C6: the featured parameter is an exact boolean constraint exactly
    when explicitly present — featured = false matches only documents whose
    featured is false, while an absent featured parameter constrains nothing. -/
theorem featured_param_semantics :
    (∀ (a : Animal) (x : Bool),
      animalMatches (ListAnimalsParams.mk none none none none none (some x) 24) a
          = true ↔
        a.featured = x) ∧
    (∀ a : Animal,
      animalMatches (ListAnimalsParams.mk none none none none none none 24) a
        = true) := by
  constructor
  · intro a x
    simp [animalMatches, buildAnimalFilter, evalFilter, evalFieldCond_featured]
  · intro a
    simp [animalMatches, buildAnimalFilter, evalFilter]

/-- Witness for C6: with featured = false, the non-featured document matches;
    with featured absent it also matches. -/
theorem featured_param_semantics_witness :
    animalMatches (ListAnimalsParams.mk none none none none none (some false) 24)
      plainExample = true ∧
    animalMatches (ListAnimalsParams.mk none none none none none none 24)
      plainExample = true :=
  ⟨(featured_param_semantics.1 plainExample false).mpr rfl,
    featured_param_semantics.2 plainExample⟩

theorem oidString_ne_empty (n : Nat) : oidString n ≠ "" := by
  intro h
  have h2 := congrArg String.length h
  rw [oidString, String.length_append] at h2
  have h3 : "oid".length = 3 := rfl
  have h4 : String.length "" = 0 := rfl
  rw [h3, h4] at h2
  omega

/-- Claim C7: the response projector maps None to None; on a document carrying
    a store identity it exposes that identity's string form under id, removes
    the internal _id entry, and leaves the value at every other key unchanged;
    consequently a valid Animal, once validated, stored with a fresh identity
    and projected, yields exactly its original fields plus id and no internal
    identity field. -/
theorem to_public_projection :
    to_public none = none ∧
    (∀ (d : Doc) (v : Value), dictGet d "_id" = some v →
      dictGet (to_publicDoc d) "id" = some (Value.s (pyStr (some v))) ∧
      dictGet (to_publicDoc d) "_id" = none ∧
      (∀ k, k ≠ "id" → k ≠ "_id" → dictGet (to_publicDoc d) k = dictGet d k)) ∧
    (∀ (a : Animal) (n : Nat), animalViolations a = [] →
      to_publicDoc (("_id", Value.oid n) :: animalRecordDoc a) =
        animalRecordDoc a ++ [("id", Value.s (toString n))]) := by
  refine ⟨rfl, ?_, ?_⟩
  · intro d v hv
    have hne : d ≠ [] := by
      intro h
      rw [h] at hv
      simp [dictGet] at hv
    have hform : to_publicDoc d =
        dictPop (dictSet d "id" (Value.s (pyStr (some v)))) "_id" := by
      simp [to_publicDoc, hne, hv]
    refine ⟨?_, ?_, ?_⟩
    · rw [hform, dictGet_dictPop_ne _ _ _ (by decide), dictGet_dictSet_self]
    · rw [hform, dictGet_dictPop_self]
    · intro k hk1 hk2
      rw [hform, dictGet_dictPop_ne _ _ _ hk2, dictGet_dictSet_ne _ _ _ _ hk1]
  · intro a n _
    rfl

/-- Witness for C7 at a concrete stored document and a concrete valid Animal. -/
theorem to_public_projection_witness :
    dictGet (to_publicDoc [("_id", Value.oid 5), ("name", Value.s "Luna")]) "id" =
      some (Value.s "5") ∧
    dictGet (to_publicDoc [("_id", Value.oid 5), ("name", Value.s "Luna")]) "_id" =
      none ∧
    dictGet (to_publicDoc [("_id", Value.oid 5), ("name", Value.s "Luna")]) "name" =
      some (Value.s "Luna") ∧
    to_publicDoc (("_id", Value.oid 7) :: animalRecordDoc lunaExample) =
      animalRecordDoc lunaExample ++ [("id", Value.s "7")] := by
  have h := to_public_projection.2.1 [("_id", Value.oid 5), ("name", Value.s "Luna")]
    (Value.oid 5) rfl
  have h2 := to_public_projection.2.2 lunaExample 7 (by decide)
  exact ⟨h.1, h.2.1, by rw [h.2.2 "name" (by decide) (by decide)]; rfl, h2⟩

/-- Claim C10: a negative age_min or age_max is rejected by parameter
    validation on GET /animals (never applied as a range bound), and every
    accepted age bound is nonnegative. -/
theorem negative_age_bounds_rejected :
    (∀ (db : Option (List Animal)) (p : ListAnimalsParams) (m : Int),
      (p.age_min = some m ∨ p.age_max = some m) → m < 0 →
      list_animals db p = ApiResult.validationError (animalParamViolations p) ∧
      animalParamViolations p ≠ []) ∧
    (∀ (db : Option (List Animal)) (p : ListAnimalsParams) (res : List Animal),
      list_animals db p = ApiResult.ok res →
      (∀ m, p.age_min = some m → 0 ≤ m) ∧ (∀ m, p.age_max = some m → 0 ≤ m)) := by
  have hviol : ∀ (p : ListAnimalsParams) (m : Int),
      (p.age_min = some m ∨ p.age_max = some m) → m < 0 →
      animalParamViolations p ≠ [] := by
    intro p m hm hneg
    rcases hm with h | h <;> simp [animalParamViolations, h, hneg]
  constructor
  · intro db p m hm hneg
    have hv := hviol p m hm hneg
    exact ⟨by simp [list_animals, hv], hv⟩
  · intro db p res h
    constructor <;> intro m hm <;> by_contra hneg <;>
      simp [list_animals,
        hviol p m (by simp [hm]) (lt_of_not_le fun hge => hneg hge)] at h

/-- Witness for C10: age_min = -1 is rejected. -/
theorem negative_age_bounds_rejected_witness :
    list_animals none (ListAnimalsParams.mk none none (some (-1)) none none none 24) =
      ApiResult.validationError ["age_min"] := by
  have h := negative_age_bounds_rejected.1 none
    (ListAnimalsParams.mk none none (some (-1)) none none none 24) (-1)
    (Or.inl rfl) (by decide)
  rw [h.1]
  decide

/-- Claim C8: POST /donations requires a strictly positive amount — a body with
    amount ≤ 0 fails validation with no store write, and a valid body yields a
    non-empty id and the fixed status token pledged. -/
theorem donation_amount_strictly_positive :
    (∀ (st : WriteStore) (r : RawDonation) (x : Rat), r.amount = some x → x ≤ 0 →
      (submit_donation st r).1 = ApiResult.validationError (donationViolations r) ∧
      donationViolations r ≠ [] ∧ (submit_donation st r).2 = st) ∧
    (∀ (st : WriteStore) (r : RawDonation), donationViolations r = [] →
      ∃ did : String,
        (submit_donation st r).1 = ApiResult.ok (did, "pledged") ∧ did ≠ "") := by
  constructor
  · intro st r x hx hle
    have hv : donationViolations r ≠ [] := by
      simp [donationViolations, hx, not_lt.mpr hle]
    exact ⟨by simp [submit_donation, hv], hv, by simp [submit_donation, hv]⟩
  · intro st r h
    rcases hfn : r.full_name with _ | fn
    · rw [donationViolations, hfn] at h
      simp at h
    rcases ham : r.amount with _ | x
    · rw [donationViolations, ham] at h
      simp at h
    refine ⟨oidString st.nextId, ?_, oidString_ne_empty _⟩
    simp [submit_donation, h, hfn, ham, insertDonation]

/-- Witness for C8: amount = 0 is rejected, amount = 25.5 yields pledged. -/
theorem donation_amount_strictly_positive_witness :
    (submit_donation (WriteStore.mk [] [] [] 0)
        (RawDonation.mk (some "Ada") none (some 0) none)).1 =
      ApiResult.validationError ["amount"] ∧
    (∃ did, (submit_donation (WriteStore.mk [] [] [] 0)
        (RawDonation.mk (some "Ada") none (some (25.5 : Rat)) none)).1 =
      ApiResult.ok (did, "pledged") ∧ did ≠ "") := by
  constructor
  · have h := donation_amount_strictly_positive.1 (WriteStore.mk [] [] [] 0)
      (RawDonation.mk (some "Ada") none (some 0) none) 0 rfl (by norm_num)
    rw [h.1]
    norm_num [donationViolations]
  · exact donation_amount_strictly_positive.2 (WriteStore.mk [] [] [] 0)
      (RawDonation.mk (some "Ada") none (some (25.5 : Rat)) none)
      (by norm_num [donationViolations])

/-- Claim C9: on every write endpoint, a body failing validation produces a
    client-error outcome carrying the violation list and leaves the store
    unchanged; in particular an Application whose email is not-an-email fails
    validation whatever its other fields hold. -/
theorem invalid_bodies_never_reach_store :
    (∀ (st : WriteStore) (r : RawApplication), applicationViolations r ≠ [] →
      (submit_application st r).1 =
        ApiResult.validationError (applicationViolations r) ∧
      (submit_application st r).2 = st) ∧
    (∀ (st : WriteStore) (r : RawVolunteer), volunteerViolations r ≠ [] →
      (submit_volunteer st r).1 =
        ApiResult.validationError (volunteerViolations r) ∧
      (submit_volunteer st r).2 = st) ∧
    (∀ (st : WriteStore) (r : RawDonation), donationViolations r ≠ [] →
      (submit_donation st r).1 =
        ApiResult.validationError (donationViolations r) ∧
      (submit_donation st r).2 = st) ∧
    (∀ (aid fn : String) (ph msg : Option String),
      applicationViolations
        (RawApplication.mk (some aid) (some fn) (some "not-an-email") ph msg) ≠ []) := by
  refine ⟨fun st r h => ⟨?_, ?_⟩, fun st r h => ⟨?_, ?_⟩, fun st r h => ⟨?_, ?_⟩,
    fun aid fn ph msg => ?_⟩
  · simp [submit_application, h]
  · simp [submit_application, h]
  · simp [submit_volunteer, h]
  · simp [submit_volunteer, h]
  · simp [submit_donation, h]
  · simp [submit_donation, h]
  · simp [applicationViolations]
    decide

/-- Witness for C9 at a concrete invalid body: the malformed email is rejected
    and the store is untouched. -/
theorem invalid_bodies_never_reach_store_witness :
    (submit_application (WriteStore.mk [] [] [] 0)
        (RawApplication.mk (some "a1") (some "Ada") (some "not-an-email") none none)).1 =
      ApiResult.validationError ["email"] ∧
    (submit_application (WriteStore.mk [] [] [] 0)
        (RawApplication.mk (some "a1") (some "Ada") (some "not-an-email") none none)).2 =
      WriteStore.mk [] [] [] 0 := by
  have h := invalid_bodies_never_reach_store.1 (WriteStore.mk [] [] [] 0)
    (RawApplication.mk (some "a1") (some "Ada") (some "not-an-email") none none)
    (invalid_bodies_never_reach_store.2.2.2 "a1" "Ada" none none)
  exact ⟨by rw [h.1]; decide, h.2⟩

/-- Claim C3, counterexample: GET /stories does not reject limit = 0 or
    limit = 101 with a parameter-validation error — both succeed, and limit = 0
    even returns every story (cursor.limit(0) means no limit). -/
theorem stories_limit_not_validated :
    get_stories (some [storyExample]) 0 = ApiResult.ok [to_publicDoc storyExample] ∧
    get_stories (some [storyExample]) 101 =
      ApiResult.ok [to_publicDoc storyExample] ∧
    to_publicDoc storyExample =
      [("title", Value.s "t"), ("animal_name", Value.null),
       ("content", Value.s "c"), ("image_url", Value.null),
       ("id", Value.s "1")] :=
  ⟨rfl, rfl, rfl⟩

/-- Claim C3 as amended: the [1, 100] limit validation exists only on
    GET /animals (out-of-range limits are rejected there, in-range accepted,
    default 24); GET /stories applies no range validation to limit (every
    integer is accepted, default 6); GET /animals/featured exposes no limit
    parameter and caps its result at the fixed 8. -/
theorem limit_validation_per_endpoint :
    (∀ (db : Option (List Animal)) (p : ListAnimalsParams),
      (p.limit < 1 ∨ 100 < p.limit) →
      list_animals db p = ApiResult.validationError (animalParamViolations p) ∧
      animalParamViolations p ≠ []) ∧
    (∀ (db : Option (List Animal)) (p : ListAnimalsParams),
      animalParamViolations p = [] → ∃ res, list_animals db p = ApiResult.ok res) ∧
    (∀ p : ListAnimalsParams,
      animalParamViolations p = [] → 1 ≤ p.limit ∧ p.limit ≤ 100) ∧
    (∀ (db : Option (List Doc)) (l : Int), ∃ res, get_stories db l = ApiResult.ok res) ∧
    (animalsLimitDefault = 24 ∧ storiesLimitDefault = 6) ∧
    (∀ docs : List Animal,
      ∃ res, featured_animals (some docs) = ApiResult.ok res ∧ res.length ≤ 8) := by
  refine ⟨?_, ?_, ?_, ?_, ⟨rfl, rfl⟩, ?_⟩
  · intro db p h
    have hv : animalParamViolations p ≠ [] := by
      simp [animalParamViolations, h]
    exact ⟨by simp [list_animals, hv], hv⟩
  · intro db p h
    rcases db with _ | docs
    · exact ⟨[], by simp [list_animals, h]⟩
    · exact ⟨mongoLimit p.limit (docs.filter (fun a => animalMatches p a)),
        by simp [list_animals, h]⟩
  · intro p h
    by_cases hl : p.limit < 1 ∨ 100 < p.limit
    · exact absurd h (by simp [animalParamViolations, hl])
    · omega
  · intro db l
    rcases db with _ | docs
    · exact ⟨[], rfl⟩
    · exact ⟨_, rfl⟩
  · intro docs
    refine ⟨_, rfl, ?_⟩
    simp only [mongoLimit]
    rw [if_neg (by omega)]
    simp [List.length_take_le]

/-- Witness for C3's amended theorem: on GET /animals, limit = 0 is rejected
    while limit = 1 and limit = 100 are accepted. -/
theorem limit_validation_per_endpoint_witness :
    list_animals (some []) (ListAnimalsParams.mk none none none none none none 0) =
      ApiResult.validationError (animalParamViolations
        (ListAnimalsParams.mk none none none none none none 0)) ∧
    (∃ res,
      list_animals (some []) (ListAnimalsParams.mk none none none none none none 1) =
        ApiResult.ok res) ∧
    (∃ res,
      list_animals (some [])
          (ListAnimalsParams.mk none none none none none none 100) =
        ApiResult.ok res) :=
  ⟨(limit_validation_per_endpoint.1 (some [])
      (ListAnimalsParams.mk none none none none none none 0)
      (Or.inl (by decide))).1,
   limit_validation_per_endpoint.2.1 (some [])
     (ListAnimalsParams.mk none none none none none none 1) (by decide),
   limit_validation_per_endpoint.2.1 (some [])
     (ListAnimalsParams.mk none none none none none none 100) (by decide)⟩

/-- Claim C2, counterexample: with q a regex metacharacter (the dot), the
    built q-constraint matches a document none of whose fields contain the dot
    as a substring — the raw q string is interpreted as a pattern, not as a
    literal substring. -/
theorem dot_pattern_is_not_substring :
    animalMatches (ListAnimalsParams.mk (some ".") none none none none none 24)
      plainExample = true ∧
    qSubstringSpec "." plainExample = false := by
  constructor <;> decide

/-- Claim C2 as amended: for every q free of regex metacharacters, the
    q-constraint GET /animals builds holds iff q occurs as a case-insensitive
    substring of name, breed or description (logical OR among the three); for
    a q containing metacharacters the constraint is the regex match of the raw
    pattern instead. -/
theorem literal_q_is_substring_search (q : String) (a : Animal)
    (h : q.data.all (fun c => !isRegexMeta c) = true) :
    animalMatches (ListAnimalsParams.mk (some q) none none none none none 24) a =
      qSubstringSpec q a := by
  have hrx : ∀ t, regexI q t = containsCI q t := fun t => regexI_literal q t h
  have hro : ∀ o, regexOpt q o = containsOpt q o := fun o => regexOpt_literal q o h
  by_cases hq : q = ""
  · subst hq
    simp [animalMatches, buildAnimalFilter, evalFilter, qSubstringSpec,
      containsCI_empty]
  · simp [animalMatches, buildAnimalFilter, evalFilter, hq, qSubstringSpec,
      evalFieldCond_regex_name, evalFieldCond_regex_breed,
      evalFieldCond_regex_description, hrx, hro, Bool.or_assoc]

/-- Witness for C2's amended theorem: the metacharacter-free q luna agrees with
    substring search and matches Luna case-insensitively. -/
theorem literal_q_is_substring_search_witness :
    animalMatches (ListAnimalsParams.mk (some "luna") none none none none none 24)
      lunaExample = qSubstringSpec "luna" lunaExample ∧
    animalMatches (ListAnimalsParams.mk (some "luna") none none none none none 24)
      lunaExample = true :=
  ⟨literal_q_is_substring_search "luna" lunaExample (by decide), by decide⟩

/-- Claim C1, counterexample: a supplied-but-empty species is dropped by the
    builder's truthiness test, so the built filter matches a document that
    violates the supplied species predicate — the filter is not the
    conjunction of every individually supplied constraint. -/
theorem empty_species_breaks_conjunction :
    animalMatches (ListAnimalsParams.mk none (some "") none none none none 24)
      lunaExample = true ∧
    specConjunction (ListAnimalsParams.mk none (some "") none none none none 24)
      lunaExample = false := by
  constructor <;> decide

/-- Claim C1 as amended: whenever a supplied species or size is non-empty, the
    filter GET /animals builds is exactly the conjunction of the predicates of
    the individually supplied parameters, an absent parameter contributing no
    constraint (absence never acts as a match-only-empty-or-false constraint);
    a supplied empty-string species or size is instead treated as absent, and
    a supplied empty q is dropped harmlessly since the empty pattern matches
    every document. -/
theorem supplied_params_conjunction (p : ListAnimalsParams) (a : Animal)
    (hsp : p.species ≠ some "") (hsz : p.size ≠ some "") :
    animalMatches p a = specConjunction p a := by
  obtain ⟨q, sp, amin, amax, sz, ft, lim⟩ := p
  rcases q with _ | qs
  · rcases sp with _ | sps <;> rcases sz with _ | szs <;> rcases ft with _ | fb <;>
      rcases amin with _ | m1 <;> rcases amax with _ | m2 <;>
      simp_all [animalMatches, buildAnimalFilter, evalFilter, specConjunction,
        evalFieldCond_species, evalFieldCond_size, evalFieldCond_featured,
        evalFieldCond_age, List.all_append, Bool.and_assoc]
  · by_cases hq : qs = ""
    · subst hq
      rcases sp with _ | sps <;> rcases sz with _ | szs <;> rcases ft with _ | fb <;>
        rcases amin with _ | m1 <;> rcases amax with _ | m2 <;>
        simp_all [animalMatches, buildAnimalFilter, evalFilter, specConjunction,
          qConstraint_empty, evalFieldCond_species, evalFieldCond_size,
          evalFieldCond_featured, evalFieldCond_age, List.all_append,
          Bool.and_assoc]
    · rcases sp with _ | sps <;> rcases sz with _ | szs <;> rcases ft with _ | fb <;>
        rcases amin with _ | m1 <;> rcases amax with _ | m2 <;>
        simp_all [animalMatches, buildAnimalFilter, evalFilter, specConjunction,
          qConstraint, evalFieldCond_species, evalFieldCond_size,
          evalFieldCond_featured, evalFieldCond_age, evalFieldCond_regex_name,
          evalFieldCond_regex_breed, evalFieldCond_regex_description,
          List.all_append, Bool.and_assoc, Bool.or_assoc]

/-- Witness for C1's amended theorem at a concrete non-empty parameter set. -/
theorem supplied_params_conjunction_witness :
    animalMatches
        (ListAnimalsParams.mk none (some "dog") none none (some "large")
          (some true) 24) lunaExample =
      specConjunction
        (ListAnimalsParams.mk none (some "dog") none none (some "large")
          (some true) 24) lunaExample ∧
    animalMatches
        (ListAnimalsParams.mk none (some "dog") none none (some "large")
          (some true) 24) lunaExample = true :=
  ⟨supplied_params_conjunction
      (ListAnimalsParams.mk none (some "dog") none none (some "large")
        (some true) 24) lunaExample (by decide) (by decide),
    by decide⟩

end AnimalHome
